import Mathlib

/-!
Verification of the chat / source-ranking front end of the healthcare-payer
knowledge base.  The definitions below are a shallow embedding of the two
client implementations:

* `src/frontend/app.js` (vanilla JS): `sendMessage`, `addMessage`,
  `loadStats`, `loadAlerts`, session handling;
* `src/frontend-react/src/components/*.tsx` (React): `InputBar.handleSubmit`,
  `ChatInterface` (`handleSend`, `chatMutation`), `SourceCard`,
  `MessageBubble`.

JavaScript numbers carrying relevance scores are modelled as rationals (ℚ);
optional JSON fields as `Option`; JS truthiness of a number is "≠ 0", of a
string "non-empty", of an optional field "present and truthy".
-/

namespace HPKB

/-- Whitespace predicate used by `String.prototype.trim` (modelled with
Lean's character whitespace class). -/
def isWS (c : Char) : Bool := c.isWhitespace

/-- `trim` on a character list: drop leading and trailing whitespace.
Embeds JS `input.trim()`. -/
def trimList (s : List Char) : List Char :=
  ((s.dropWhile isWS).reverse.dropWhile isWS).reverse

/-- JS `s.trim()` on strings. -/
def jsTrim (s : String) : String := ⟨trimList s.data⟩

/-- A source citation as consumed by both frontends
(`Source` interface in `src/frontend-react/src/lib/api.ts`). -/
structure Source where
  rule_id : Nat
  payer_name : String
  rule_type : String
  title : Option String
  content_excerpt : Option String
  effective_date : Option String
  source_url : Option String
  similarity_score : Option ℚ
  combined_score : Option ℚ
deriving DecidableEq

/-- JS `a || b` where `a` is an optional numeric field: a present, nonzero
value short-circuits; an absent field or a zero value (both falsy in JS)
fall through to `b`. -/
def jsOrQ (a : Option ℚ) (b : ℚ) : ℚ :=
  match a with
  | some x => if x = 0 then b else x
  | none => b

/-- The display score computed inline in both frontends:
`(source.combined_score || source.similarity_score || 0)`
(`SourceCard.tsx` line 14, `app.js` line 233). -/
def displayScore (s : Source) : ℚ :=
  jsOrQ s.combined_score (jsOrQ s.similarity_score 0)

/-- JS `Math.round` (and `toFixed(0)`): round half toward +∞, i.e.
`⌊x + 1/2⌋`.  Written in a kernel-executable normal form
(`(2n + d) / (2d)` where `x = n/d`); `jsRound_eq` proves it equal to the
canonical `⌊x + 1/2⌋`. -/
def jsRound (q : ℚ) : ℤ := (Rat.divInt (2 * q.num + q.den) (2 * q.den)).floor

/-- Multiplication by 100, in the same executable normal form;
`times100_eq` proves it equal to `q * 100`. -/
def times100 (q : ℚ) : ℚ := Rat.divInt (100 * q.num) q.den

/-- `SourceCard.tsx` line 14:
`Math.round((source.combined_score || source.similarity_score || 0) * 100)`.
`app.js` line 233/237 computes the same value via `(score).toFixed(0)`
after multiplying by 100 (`toFixed` also rounds half toward +∞). -/
def matchScore (s : Source) : ℤ := jsRound (times100 (displayScore s))

/-- The three badge styles of `SourceCard.tsx` lines 37-39:
green = high-confidence, yellow = medium, gray = low. -/
inductive Badge
  | green
  | yellow
  | gray
deriving DecidableEq

/-- `SourceCard.tsx` lines 37-39:
`matchScore >= 80 ? green : matchScore >= 60 ? yellow : gray`. -/
def scoreBadge (s : Source) : Badge :=
  if matchScore s ≥ 80 then .green
  else if matchScore s ≥ 60 then .yellow
  else .gray

/-- One rendered source row, as produced by `addMessage` in `app.js`
lines 232-243 (`${index + 1}. ${source.payer_name}` /
`${score.toFixed(0)}% match` / `${source.rule_type}`); the React
`MessageBubble` renders the same data per index via `SourceCard`. -/
structure SourceLine where
  position : Nat
  payer : String
  scorePct : ℤ
  ruleType : String
deriving DecidableEq

/-- The `sources.forEach((source, index) => ...)` loop of `addMessage`
(and `sources.map((source, index) => <SourceCard .../>)` in
`MessageBubble.tsx` lines 84-86): renders the list in the order received,
with 1-based positions. -/
def sourceLinesAux (i : Nat) : List Source → List SourceLine
  | [] => []
  | s :: rest =>
    ⟨i + 1, s.payer_name, matchScore s, s.rule_type⟩ :: sourceLinesAux (i + 1) rest

/-- The displayed list of source rows for one assistant message. -/
def sourceLines (sources : List Source) : List SourceLine :=
  sourceLinesAux 0 sources

/-- Message author; `app.js` uses the strings `'user'` / `'bot'`,
the React code `'user'` / `'assistant'`. -/
inductive Role
  | user
  | assistant
deriving DecidableEq

/-- One chat message (`addMessage(content, type, sources)` in `app.js`;
`Message` in `ChatInterface.tsx`). -/
structure Turn where
  role : Role
  content : String
  sources : List Source
deriving DecidableEq

/-- Conversation-side state of `app.js`: the appended messages, the
mutable `sessionId` global (`null` before initialization), and the number
of typing indicators currently shown (`showTypingIndicator` /
`removeTypingIndicator`); `pending = 0` is the idle state. -/
structure ConvState where
  turns : List Turn
  sessionId : Option String
  pending : Nat
deriving DecidableEq

/-- Body of `POST /chat/query` as built in `app.js` lines 186-192. -/
structure ChatRequest where
  query : String
  session_id : Option String
  payer_name : Option String
  rule_type : Option String
  include_sources : Bool
deriving DecidableEq

/-- `payerFilter || null` on a DOM `<select>` value: the empty string
(the "All Payers" option) becomes `null`. -/
def optOfDomValue (v : String) : Option String :=
  if v = "" then none else some v

/-- The fixed apology shown on error, `app.js` line 211 and
`ChatInterface.tsx` line 68. -/
def apologyText : String := "Sorry, I encountered an error. Please try again."

/-- The synchronous prefix of `sendMessage` (`app.js` lines 161-193):
trim the input; on empty input return without any effect; otherwise
append the user message, show the typing indicator and issue the request. -/
def submit (st : ConvState) (raw payerFilter ruleTypeFilter : String) :
    ConvState × Option ChatRequest :=
  let query := jsTrim raw
  if query = "" then (st, none)
  else
    ({ st with
        turns := st.turns ++ [⟨.user, query, []⟩],
        pending := st.pending + 1 },
     some ⟨query, st.sessionId, optOfDomValue payerFilter,
           optOfDomValue ruleTypeFilter, true⟩)

/-- Result of `response.json()`: either the body is not JSON (the promise
rejects) or it parses, with each consumed field possibly absent. -/
inductive BodyParse
  | malformed
  | parsed (response : Option String) (sources : Option (List Source))
      (session_id : Option String)
deriving DecidableEq

/-- Result of the `fetch` round trip: rejection (network failure /
timeout), or an HTTP response with a status code and a body. -/
inductive FetchOutcome
  | networkError
  | response (status : Nat) (body : BodyParse)
deriving DecidableEq

/-- `app.js` lines 204-206: `if (data.session_id) { sessionId =
data.session_id; }` — a present, non-empty (truthy) id replaces the
current one, anything else leaves it unchanged. -/
def adoptSessionId (current serverProvided : Option String) : Option String :=
  match serverProvided with
  | some s => if s = "" then current else some s
  | none => current

/-- Interpolating a possibly-undefined JS value into the DOM renders the
string "undefined". -/
def jsToString (o : Option String) : String := o.getD "undefined"

/-- The continuation of `sendMessage` after the `fetch` (`app.js` lines
195-212).  Note the code never consults `response.ok` / the status code:
any response whose body parses as JSON — 2xx or not — takes the success
path (`addMessage(data.response, 'bot', data.sources)` plus session
adoption); only a rejected `fetch` or a body that fails `response.json()`
reaches the `catch` block, which appends the fixed apology with no
sources.  Every branch removes one typing indicator. -/
def processOutcome (st : ConvState) (o : FetchOutcome) : ConvState :=
  match o with
  | .networkError =>
    { st with
        pending := st.pending - 1,
        turns := st.turns ++ [⟨.assistant, apologyText, []⟩] }
  | .response _ .malformed =>
    { st with
        pending := st.pending - 1,
        turns := st.turns ++ [⟨.assistant, apologyText, []⟩] }
  | .response _ (.parsed r srcs sid) =>
    { turns := st.turns ++ [⟨.assistant, jsToString r, srcs.getD []⟩],
      sessionId := adoptSessionId st.sessionId sid,
      pending := st.pending - 1 }

/-- `ChatQueryResponse` of `api.ts` as consumed by `ChatInterface`. -/
structure ChatResponse where
  response : String
  sources : List Source
  session_id : String
  query_id : Nat
  response_time_ms : Nat
deriving DecidableEq

/-- State owned by the React `ChatInterface` component: the `messages`
array and the `sessionId`, which is created once with
`useState(() => generateSessionId())` and has no setter. -/
structure ReactState where
  messages : List Turn
  sessionId : String
deriving DecidableEq

/-- `InputBar.handleSubmit` (`InputBar.tsx` lines 15-23):
`if (input.trim() && !isLoading && !disabled) { onSend(input.trim()); }`.
Returns the message passed to `onSend`, or `none` when nothing is sent. -/
def inputBarSubmit (input : String) (isLoading disabled : Bool) : Option String :=
  if (jsTrim input != "") && (!isLoading) && (!disabled) then some (jsTrim input)
  else none

/-- `ChatInterface.handleSend` (`ChatInterface.tsx` lines 77-88): append
the user message and hand the same string to `chatMutation.mutate`.
Returns the new state and the query string dispatched to the server. -/
def reactHandleSend (st : ReactState) (message : String) : ReactState × String :=
  ({ st with messages := st.messages ++ [⟨.user, message, []⟩] }, message)

/-- `chatMutation.onSuccess` (`ChatInterface.tsx` lines 51-62): append the
assistant message with the returned sources.  The component's `sessionId`
is never written after creation, so `data.session_id` is ignored. -/
def reactOnSuccess (st : ReactState) (data : ChatResponse) : ReactState :=
  { st with messages := st.messages ++ [⟨.assistant, data.response, data.sources⟩] }

/-- `chatMutation.onError` (`ChatInterface.tsx` lines 63-74): append the
fixed apology with no sources and log the error. -/
def reactOnError (st : ReactState) : ReactState :=
  { st with messages := st.messages ++ [⟨.assistant, apologyText, []⟩] }

/-- The stats snapshot consumed by `loadStats` (`GET /stats`). -/
structure Stats where
  total_payers : Nat
  total_rules : Nat
  unread_alerts : Nat
deriving DecidableEq

/-- An alert consumed by `loadAlerts` (`GET /alerts`). -/
structure Alert where
  title : String
  message : String
  severity : String
deriving DecidableEq

/-- Content of the stats widget (`statsGrid.innerHTML`). -/
inductive StatsWidget
  | initial
  | grid (s : Stats)
deriving DecidableEq

/-- Content of the alerts widget (`alertsList.innerHTML`). -/
inductive AlertsWidget
  | initial
  | noAlerts
  | listed (alerts : List Alert)
  | errorPlaceholder
deriving DecidableEq

/-- The two dashboard widgets refreshed by the 30-second
`setInterval` poll (`app.js` lines 319-323). -/
structure DashState where
  stats : StatsWidget
  alerts : AlertsWidget
deriving DecidableEq

/-- `loadStats` (`app.js` lines 78-101): on success replace the grid; the
`catch` block only calls `console.error`, leaving the widget untouched. -/
def loadStats (st : DashState) (fetched : Option Stats) : DashState :=
  match fetched with
  | some s => { st with stats := .grid s }
  | none => st

/-- `loadAlerts` (`app.js` lines 135-158): on success show the list (or
the "No new alerts" placeholder); the `catch` block logs AND overwrites
`alertsList.innerHTML` with the "Error loading alerts" placeholder. -/
def loadAlerts (st : DashState) (fetched : Option (List Alert)) : DashState :=
  match fetched with
  | some [] => { st with alerts := .noAlerts }
  | some alerts => { st with alerts := .listed alerts }
  | none => { st with alerts := .errorPlaceholder }

/-- One tick of the `setInterval` poll: `loadStats(); loadAlerts();`. -/
def dashTick (st : DashState) (stats : Option Stats)
    (alerts : Option (List Alert)) : DashState :=
  loadAlerts (loadStats st stats) alerts

/-- Whole-page chat state: the conversation plus the set of requests
currently awaiting a response.  `app.js` keeps no such set — which is the
point: nothing in `sendMessage` checks for an outstanding request. -/
structure SysState where
  conv : ConvState
  inflight : List ChatRequest
deriving DecidableEq

/-- Events of the single-threaded event loop: a user submit, or the
arrival of the network outcome for the i-th outstanding request. -/
inductive Ev
  | submit (raw : String)
  | resolve (i : Nat) (o : FetchOutcome)
deriving DecidableEq

/-- Event-loop step for `app.js`: a submit runs the synchronous prefix of
`sendMessage` (which unconditionally issues a request for non-empty
input); a resolve runs the continuation on the chosen outstanding
request, whatever order the network delivers responses in. -/
def stepEv (sys : SysState) (e : Ev) : SysState :=
  match e with
  | .submit raw =>
    let r := submit sys.conv raw "" ""
    { conv := r.1, inflight := sys.inflight ++ r.2.toList }
  | .resolve i o =>
    if i < sys.inflight.length then
      { conv := processOutcome sys.conv o, inflight := sys.inflight.eraseIdx i }
    else sys

/-- Run a sequence of events. -/
def runEvents (sys : SysState) (es : List Ev) : SysState :=
  es.foldl stepEv sys

/-- Modelled from the spec, for comparison with the code (spec section
4.3): display score is `combined_score` if present and defined — zero
included — else `similarity_score` if present, else 0. -/
def specDisplayScore (s : Source) : ℚ :=
  match s.combined_score with
  | some c => c
  | none =>
    match s.similarity_score with
    | some v => v
    | none => 0

/-- Modelled from the spec, for comparison with the code (spec section
4.1): adopt the server id exactly when it is present and non-empty. -/
def specAdoptSessionId (current serverProvided : Option String) : Option String :=
  if serverProvided ≠ none ∧ serverProvided ≠ some "" then serverProvided
  else current

/-! ### Concrete inputs used by counterexamples and witnesses -/

/-- A source whose backend-fused score is present and exactly zero while a
similarity score is also present. -/
def c2Src : Source :=
  ⟨1, "Aetna", "timely_filing", none, none, none, none, some (mkRat 1 2), some 0⟩

/-- A source with a present, nonzero combined score. -/
def c2wSrc : Source :=
  ⟨2, "Cigna", "appeals", none, none, none, none, some (mkRat 19 20), some (mkRat 7 10)⟩

/-- A source whose combined score is out of range above (1.5). -/
def c3Src : Source :=
  ⟨3, "Aetna", "timely_filing", none, none, none, none, none, some (mkRat 3 2)⟩

/-- A source whose combined score is out of range below (-0.5). -/
def c3NegSrc : Source :=
  ⟨4, "Humana", "prior_auth", none, none, none, none, none, some (mkRat (-1) 2)⟩

/-- A source with an ordinary in-range combined score (0.92). -/
def c3wSrc : Source :=
  ⟨5, "Aetna", "timely_filing", none, none, none, none, none, some (mkRat 92 100)⟩

/-- Backend returns the weaker source first... -/
def c1Lo : Source :=
  ⟨6, "UHC", "appeals", none, none, none, none, some (mkRat 1 10), none⟩

/-- The stronger source arrives second from the backend. -/
def c1Hi : Source :=
  ⟨7, "Aetna", "timely_filing", none, none, none, none, some (mkRat 9 10), none⟩

/-- Initial React conversation state for the C5 counterexample. -/
def c5St : ReactState := ⟨[], "session_react_1"⟩

/-- A successful response carrying a fresh, non-empty server session id. -/
def c5Resp : ChatResponse := ⟨"answer", [], "session_server_2", 1, 5⟩

/-- Conversation state with one user turn and a request in flight. -/
def c7St : ConvState := ⟨[⟨.user, "q", []⟩], some "s1", 1⟩

/-- Dashboard showing a stats grid and one alert. -/
def c8St : DashState := ⟨.grid ⟨5, 100, 2⟩, .listed [⟨"policy change", "updated", "high"⟩]⟩

/-- Empty page state: no turns, fresh session, nothing in flight. -/
def sysInit : SysState := ⟨⟨[], some "s", 0⟩, []⟩

/-- A well-formed 200 response answering with the given text. -/
def okBody (ans : String) : FetchOutcome :=
  .response 200 (.parsed (some ans) none none)

/-! ### Helper lemmas -/

theorem den_cast_ne_zero (q : ℚ) : ((q.den : ℚ)) ≠ 0 := by
  exact_mod_cast q.den_nz

theorem num_cast_eq (q : ℚ) : ((q.num : ℚ)) = q * (q.den : ℚ) :=
  (div_eq_iff (den_cast_ne_zero q)).mp (Rat.num_div_den q)

theorem ratFloor_eq_intFloor (q : ℚ) : q.floor = ⌊q⌋ := by
  rw [Rat.floor_def', Rat.floor_def]

theorem times100_eq (q : ℚ) : times100 q = q * 100 := by
  rw [times100, Rat.divInt_eq_div]
  push_cast
  rw [div_eq_iff (den_cast_ne_zero q), num_cast_eq]
  ring

theorem jsRound_eq (q : ℚ) : jsRound q = ⌊q + 1/2⌋ := by
  rw [jsRound, ratFloor_eq_intFloor, Rat.divInt_eq_div]
  congr 1
  push_cast
  rw [div_eq_iff (mul_ne_zero two_ne_zero (den_cast_ne_zero q)), num_cast_eq]
  ring

/-- The percentage shown is `⌊score * 100 + 1/2⌋`, i.e. `round(score*100)`
with halves rounded up, exactly as `Math.round` does. -/
theorem matchScore_eq (s : Source) : matchScore s = ⌊displayScore s * 100 + 1/2⌋ := by
  rw [matchScore, jsRound_eq, times100_eq]

theorem sourceLinesAux_map_payer_score (i : Nat) (l : List Source) :
    (sourceLinesAux i l).map (fun r => (r.payer, r.scorePct)) =
      l.map (fun s => (s.payer_name, matchScore s)) := by
  induction l generalizing i with
  | nil => rfl
  | cons s rest ih => simp [sourceLinesAux, ih]

theorem sourceLinesAux_map_score (i : Nat) (l : List Source) :
    (sourceLinesAux i l).map SourceLine.scorePct = l.map matchScore := by
  induction l generalizing i with
  | nil => rfl
  | cons s rest ih => simp [sourceLinesAux, ih]

theorem sourceLinesAux_map_position (i : Nat) (l : List Source) :
    (sourceLinesAux i l).map SourceLine.position = List.range' (i + 1) l.length := by
  induction l generalizing i with
  | nil => rfl
  | cons s rest ih => simp [sourceLinesAux, List.range', ih]

theorem trimList_of_all_ws (l : List Char) (h : l.all isWS = true) :
    trimList l = [] := by
  have hd : l.dropWhile isWS = [] := by
    rw [List.dropWhile_eq_nil_iff]
    intro x hx
    exact (List.all_eq_true.mp h) x hx
  simp [trimList, hd]

/-! ### Claims -/

/-- C1.  The claim says the displayed source list is a stable descending
sort on the display score.  False: neither `addMessage` (`app.js`) nor
`MessageBubble`/`SourceCard` sorts — sources are rendered exactly in
backend order.  With backend order `[0.1, 0.9]` the displayed rows carry
percentages `[10, 90]`, which is not non-increasing. -/
theorem C1_counterexample :
    ¬ List.Sorted (fun a b : ℚ => b ≤ a) ([c1Lo, c1Hi].map displayScore) ∧
    (sourceLines [c1Lo, c1Hi]).map SourceLine.scorePct = [10, 90] ∧
    ¬ List.Sorted (fun a b : ℤ => b ≤ a)
        ((sourceLines [c1Lo, c1Hi]).map SourceLine.scorePct) := by
  refine ⟨by decide, by decide, by decide⟩

/-- C1 amended: the client performs no re-sorting at all.  The i-th
displayed row is exactly the i-th backend source (same payer, its match
percentage, 1-based position `i+1`), and the displayed percentage
sequence is descending precisely when the backend already returned the
sources in descending order of their match score. -/
theorem C1_displayed_order_is_backend_order (sources : List Source) :
    (sourceLines sources).map (fun r => (r.payer, r.scorePct)) =
      sources.map (fun s => (s.payer_name, matchScore s)) ∧
    (sourceLines sources).map SourceLine.position = List.range' 1 sources.length ∧
    (List.Sorted (fun a b : ℤ => b ≤ a)
        ((sourceLines sources).map SourceLine.scorePct) ↔
      List.Sorted (fun a b : ℤ => b ≤ a) (sources.map matchScore)) := by
  refine ⟨sourceLinesAux_map_payer_score 0 sources,
    sourceLinesAux_map_position 0 sources, ?_⟩
  rw [sourceLines, sourceLinesAux_map_score]

/-- C2.  The claim says a present combined score — zero included — is the
display score.  False: the JS fallback `combined_score ||
similarity_score || 0` treats a present `0` as falsy, so with
`combined_score = 0` and `similarity_score = 0.5` the display score is
`0.5`, while the spec's fallback yields `0`. -/
theorem C2_counterexample :
    c2Src.combined_score = some 0 ∧
    displayScore c2Src = mkRat 1 2 ∧
    displayScore c2Src ≠ 0 ∧
    specDisplayScore c2Src = 0 := by
  refine ⟨by decide, by decide, by decide, by decide⟩

/-- C2 amended: the display score is the combined score when that is
present AND nonzero, else the similarity score when that is present and
nonzero, else 0 (JS truthiness, not mere presence, drives the fallback);
moreover the display score always comes from one of the two raw fields or
is 0. -/
theorem C2_truthy_fallback (s : Source) (c v : ℚ) :
    (s.combined_score = some c → c ≠ 0 → displayScore s = c) ∧
    ((s.combined_score = none ∨ s.combined_score = some 0) →
      s.similarity_score = some v → v ≠ 0 → displayScore s = v) ∧
    ((s.combined_score = none ∨ s.combined_score = some 0) →
      (s.similarity_score = none ∨ s.similarity_score = some 0) →
      displayScore s = 0) ∧
    (displayScore s = 0 ∨ some (displayScore s) = s.combined_score ∨
      some (displayScore s) = s.similarity_score) := by
  refine ⟨?_, ?_, ?_, ?_⟩
  · intro h1 h2
    simp [displayScore, jsOrQ, h1, h2]
  · intro h1 h2 h3
    rcases h1 with h1 | h1 <;> simp [displayScore, jsOrQ, h1, h2, h3]
  · intro h1 h2
    rcases h1 with h1 | h1 <;> rcases h2 with h2 | h2 <;>
      simp [displayScore, jsOrQ, h1, h2]
  · rcases hc : s.combined_score with _ | c₀ <;>
      rcases hv : s.similarity_score with _ | v₀ <;>
      simp only [displayScore, jsOrQ, hc, hv] <;>
      first
      | (split_ifs <;> simp_all)
      | simp_all

/-- Witness for C2 amended at a concrete source with a present, nonzero
combined score: the combined score wins. -/
theorem C2_truthy_fallback_witness :
    c2wSrc.combined_score = some (mkRat 7 10) ∧ (mkRat 7 10 : ℚ) ≠ 0 ∧
    displayScore c2wSrc = mkRat 7 10 :=
  ⟨by decide, by decide,
    (C2_truthy_fallback c2wSrc (mkRat 7 10) 0).1 (by decide) (by decide)⟩

/-- C3.  The claim says display scores are clamped to `[0,1]` (displayed
percentages to `[0,100]`).  False: no clamping exists anywhere in either
frontend.  A combined score of `1.5` renders as `150% match` and `-0.5`
as `-50% match`. -/
theorem C3_counterexample :
    displayScore c3Src = mkRat 3 2 ∧
    matchScore c3Src = 150 ∧
    ¬ matchScore c3Src ≤ 100 ∧
    matchScore c3NegSrc = -50 ∧
    ¬ 0 ≤ matchScore c3NegSrc := by
  refine ⟨by decide, by decide, by decide, by decide, by decide⟩

/-- C3 amended: out-of-range raw scores are passed through unclamped (the
rendering itself is total — it never fails, it just shows an
out-of-range percentage); whenever the raw-derived display score does lie
in `[0,1]`, the displayed percentage lies in `[0,100]`. -/
theorem C3_no_clamp_in_range (s : Source)
    (h0 : 0 ≤ displayScore s) (h1 : displayScore s ≤ 1) :
    0 ≤ matchScore s ∧ matchScore s ≤ 100 := by
  rw [matchScore_eq]
  constructor
  · rw [Int.le_floor]
    push_cast
    linarith
  · have h : (⌊displayScore s * 100 + 1/2⌋ : ℤ) < 101 := by
      rw [Int.floor_lt]
      push_cast
      linarith
    omega

/-- Witness for C3 amended at a concrete in-range source (0.92 → 92%). -/
theorem C3_no_clamp_in_range_witness :
    0 ≤ displayScore c3wSrc ∧ displayScore c3wSrc ≤ 1 ∧
    0 ≤ matchScore c3wSrc ∧ matchScore c3wSrc ≤ 100 :=
  ⟨by decide, by decide,
    (C3_no_clamp_in_range c3wSrc (by decide) (by decide)).1,
    (C3_no_clamp_in_range c3wSrc (by decide) (by decide)).2⟩

/-- C4 (confirmed).  The displayed percentage is `round(score * 100)`
(`Math.round`, i.e. `⌊x + 1/2⌋`, so it is within 1/2 of `score * 100`),
and the severity badge of `SourceCard` is green (high-confidence) iff the
percentage is ≥ 80, yellow (medium) iff it is in 60..79, and gray (low)
iff it is < 60. -/
theorem C4_percentage_and_banding (s : Source) :
    matchScore s = ⌊displayScore s * 100 + 1/2⌋ ∧
    |((matchScore s : ℚ)) - displayScore s * 100| ≤ 1/2 ∧
    (scoreBadge s = .green ↔ 80 ≤ matchScore s) ∧
    (scoreBadge s = .yellow ↔ 60 ≤ matchScore s ∧ matchScore s ≤ 79) ∧
    (scoreBadge s = .gray ↔ matchScore s < 60) := by
  have hm := matchScore_eq s
  refine ⟨hm, ?_, ?_, ?_, ?_⟩
  · rw [hm, abs_le]
    have hle : (⌊displayScore s * 100 + 1/2⌋ : ℚ) ≤ displayScore s * 100 + 1/2 :=
      Int.floor_le _
    have hlt : displayScore s * 100 + 1/2 < (⌊displayScore s * 100 + 1/2⌋ : ℚ) + 1 :=
      Int.lt_floor_add_one _
    constructor <;> linarith
  · unfold scoreBadge
    split_ifs with hh hy <;> simp <;> omega
  · unfold scoreBadge
    split_ifs with hh hy <;> simp <;> omega
  · unfold scoreBadge
    split_ifs with hh hy <;> simp <;> omega

/-- C5.  The claim says that after a successful response the session id
equals the server-provided id whenever it is present and non-empty.
False for the React frontend: `ChatInterface` creates `sessionId` once
with `useState` and has no setter, so `data.session_id` is ignored and
the client-generated id survives. -/
theorem C5_counterexample :
    c5Resp.session_id ≠ "" ∧
    (reactOnSuccess c5St c5Resp).sessionId ≠ c5Resp.session_id ∧
    (reactOnSuccess c5St c5Resp).sessionId = c5St.sessionId := by
  refine ⟨by decide, by decide, by decide⟩

/-- C5 amended: the vanilla frontend (`app.js`) adopts the server id
exactly per the spec's rule — present and non-empty replaces, anything
else keeps the current id, and failure paths never touch it — while the
React frontend keeps its initially generated session id for the whole
conversation and never adopts a server-provided one. -/
theorem C5_session_adoption (cur sid : Option String) (cst : ConvState)
    (st : ReactState) (data : ChatResponse) (r : Option String)
    (srcs : Option (List Source)) (status : Nat) :
    adoptSessionId cur sid = specAdoptSessionId cur sid ∧
    (processOutcome cst (.response status (.parsed r srcs sid))).sessionId =
      adoptSessionId cst.sessionId sid ∧
    (processOutcome cst .networkError).sessionId = cst.sessionId ∧
    (processOutcome cst (.response status .malformed)).sessionId = cst.sessionId ∧
    (reactOnSuccess st data).sessionId = st.sessionId ∧
    (reactOnError st).sessionId = st.sessionId := by
  refine ⟨?_, rfl, rfl, rfl, rfl, rfl⟩
  unfold adoptSessionId specAdoptSessionId
  rcases sid with _ | s
  · simp
  · by_cases h : s = "" <;> simp [h]

/-- C6 (confirmed).  An input that is empty or all whitespace trims to
the empty string; `sendMessage` returns before touching the conversation
or the network (`if (!query) return`), and `InputBar.handleSubmit`'s
guard fails, so no message is sent.  No turn is appended, no request is
issued, the state is unchanged and no error is surfaced. -/
theorem C6_empty_submit_noop (st : ConvState) (raw pf rf : String)
    (l d : Bool) (h : raw.data.all isWS = true) :
    submit st raw pf rf = (st, none) ∧ inputBarSubmit raw l d = none := by
  have ht : jsTrim raw = "" := by
    show String.mk (trimList raw.data) = ""
    rw [trimList_of_all_ws raw.data h]
  constructor
  · simp [submit, ht]
  · simp [inputBarSubmit, ht]

/-- Witness for C6 at the whitespace-only input consisting of two spaces
and a tab. -/
theorem C6_empty_submit_noop_witness :
    (" \t ").data.all isWS = true ∧
    submit ⟨[], some "s", 0⟩ " \t " "" "" = (⟨[], some "s", 0⟩, none) ∧
    inputBarSubmit " \t " true false = none :=
  ⟨by decide,
    (C6_empty_submit_noop ⟨[], some "s", 0⟩ " \t " "" "" true false (by decide)).1,
    (C6_empty_submit_noop ⟨[], some "s", 0⟩ " \t " "" "" true false (by decide)).2⟩

/-- C7.  The claim says every failing query — network failure, non-2xx
HTTP status, or malformed body — yields the fixed apology turn.  False
for `app.js`: the code never checks `response.ok`, so a 500 response
whose body parses as JSON (here an error body with no `response` field)
takes the success path and appends a turn rendering the undefined
`data.response` ("undefined"), not the apology. -/
theorem C7_counterexample :
    (processOutcome c7St (.response 500 (.parsed none none none))).turns =
      c7St.turns ++ [⟨.assistant, "undefined", []⟩] ∧
    (⟨Role.assistant, "undefined", []⟩ : Turn) ≠ ⟨Role.assistant, apologyText, []⟩ := by
  refine ⟨by decide, by decide⟩

/-- C7 amended: a rejected `fetch` (network failure / timeout) and a body
that fails `response.json()` are the only outcomes routed to the `catch`
block; each appends exactly one assistant turn carrying the fixed apology
and no sources, leaves the session id unchanged, and every outcome —
success or failure — appends exactly one assistant-side turn and removes
one typing indicator (returning to idle when the request was the only one
pending).  A non-2xx response whose body parses as JSON is NOT treated as
a failure. -/
theorem C7_failure_apology (st : ConvState) (status : Nat) (o : FetchOutcome) :
    (processOutcome st .networkError).turns =
      st.turns ++ [⟨.assistant, apologyText, []⟩] ∧
    (processOutcome st (.response status .malformed)).turns =
      st.turns ++ [⟨.assistant, apologyText, []⟩] ∧
    (processOutcome st o).turns.length = st.turns.length + 1 ∧
    (processOutcome st o).pending = st.pending - 1 := by
  refine ⟨rfl, rfl, ?_, ?_⟩ <;>
    rcases o with _ | ⟨st2, _ | ⟨r, srcs, sid⟩⟩ <;> simp [processOutcome]

/-- C8.  The claim says a failed poll fetch leaves the previous snapshot
displayed for both widgets and is only logged.  False for alerts: the
`catch` of `loadAlerts` overwrites `alertsList.innerHTML` with the
"Error loading alerts" placeholder, replacing the displayed alert list. -/
theorem C8_counterexample :
    loadAlerts c8St none ≠ c8St ∧
    (loadAlerts c8St none).alerts = .errorPlaceholder := by
  refine ⟨by decide, by decide⟩

/-- C8 amended: a failed stats fetch leaves the whole dashboard unchanged
(only logged), but a failed alerts fetch replaces the alerts widget with
an error placeholder (stats side untouched); a poll tick on which both
fetches fail therefore only damages the alerts widget.  Neither failure
propagates. -/
theorem C8_poll_failure_behavior (st : DashState) :
    loadStats st none = st ∧
    (loadAlerts st none).alerts = .errorPlaceholder ∧
    (loadAlerts st none).stats = st.stats ∧
    dashTick st none none = { st with alerts := .errorPlaceholder } :=
  ⟨rfl, rfl, rfl, rfl⟩

/-- C9.  The claim says at most one query is ever in flight, with later
submits queued or rejected, so assistant turn N lands before any turn of
query N+1.  False for `app.js`: `sendMessage` has no guard, so two quick
submits put two requests in flight, and if the network answers them out
of order the assistant turn for query 1 is appended after both turns of
query 2. -/
theorem C9_counterexample :
    (runEvents sysInit [.submit "q1", .submit "q2"]).inflight.length = 2 ∧
    (runEvents sysInit [.submit "q1", .submit "q2",
        .resolve 1 (okBody "A2"), .resolve 0 (okBody "A1")]).conv.turns =
      [⟨.user, "q1", []⟩, ⟨.user, "q2", []⟩,
       ⟨.assistant, "A2", []⟩, ⟨.assistant, "A1", []⟩] := by
  refine ⟨by decide, by decide⟩

/-- C9 amended: the vanilla frontend enforces no in-flight bound — every
submit with non-empty trimmed text adds one more outstanding request, no
matter how many are pending — while the React input bar applies the
"reject" policy: while a mutation is pending (`isLoading`) a submit is
silently dropped (the send button is disabled and shows a spinner as the
busy signal), and nothing is queued. -/
theorem C9_inflight_policy (sys : SysState) (raw input : String) (d : Bool) :
    (stepEv sys (.submit raw)).inflight.length =
      sys.inflight.length + (if jsTrim raw = "" then 0 else 1) ∧
    inputBarSubmit input true d = none := by
  constructor
  · by_cases h : jsTrim raw = "" <;> simp [stepEv, submit, h]
  · simp [inputBarSubmit]

/-- C10 (confirmed).  Whatever reaches the conversation or the wire is
the trimmed input: `sendMessage` trims once and uses the trimmed string
both for the user turn and the request body; `InputBar` calls
`onSend(input.trim())` and `handleSend` forwards that same string to the
turn list and the mutation. -/
theorem C10_trimmed_dispatch (st : ConvState) (rst : ReactState)
    (raw pf rf input m : String) (d : Bool) :
    (jsTrim raw ≠ "" →
      (submit st raw pf rf).1.turns = st.turns ++ [⟨.user, jsTrim raw, []⟩] ∧
      (submit st raw pf rf).2 =
        some ⟨jsTrim raw, st.sessionId, optOfDomValue pf, optOfDomValue rf, true⟩) ∧
    (inputBarSubmit input false d = some m →
      m = jsTrim input ∧
      (reactHandleSend rst m).1.messages = rst.messages ++ [⟨.user, jsTrim input, []⟩] ∧
      (reactHandleSend rst m).2 = jsTrim input) := by
  constructor
  · intro h
    constructor <;> simp [submit, h]
  · intro h
    have hm : m = jsTrim input := by
      simp only [inputBarSubmit] at h
      split at h
      · exact (Option.some.inj h).symm
      · exact absurd h (by simp)
    refine ⟨hm, ?_, ?_⟩ <;> simp [reactHandleSend, hm]

/-- Witness for C10 at the raw input " hi " (trimming to "hi"). -/
theorem C10_trimmed_dispatch_witness :
    jsTrim " hi " ≠ "" ∧
    (submit ⟨[], some "s", 0⟩ " hi " "" "").1.turns = [⟨.user, "hi", []⟩] ∧
    inputBarSubmit " hi " false false = some "hi" ∧
    (reactHandleSend ⟨[], "r"⟩ "hi").2 = "hi" := by
  have hj : jsTrim " hi " = "hi" := by decide
  have h1 :=
    (C10_trimmed_dispatch ⟨[], some "s", 0⟩ ⟨[], "r"⟩ " hi " "" "" " hi " "hi" false).1
      (by decide)
  have h2 :=
    (C10_trimmed_dispatch ⟨[], some "s", 0⟩ ⟨[], "r"⟩ " hi " "" "" " hi " "hi" false).2
      (by decide)
  refine ⟨by decide, ?_, by decide, ?_⟩
  · have := h1.1
    rw [hj] at this
    simpa using this
  · have := h2.2.2
    rw [hj] at this
    exact this

end HPKB
